import Mathlib

/-!
Shallow embedding of the EXCEL_CHATBOT core (src/project/src/utils/excelProcessor.ts
and src/project/src/utils/queryProcessor.ts), together with theorems settling the
frozen claims about it.

Modelling conventions:
* JavaScript runtime cell values are the inductive `JSVal`; JS number arithmetic is
  modelled exactly over `ℚ`, with `Option ℚ` used where `NaN` can arise (`none` = NaN).
  Every concrete numeric input exercised by a theorem is small enough that IEEE-754
  doubles compute it exactly, so the rational model agrees with the host arithmetic.
* The threshold comparison `count > values.length * 0.8` is rendered as
  `5 * count > 4 * length` over ℕ, which agrees with the double computation at
  dataset sizes (the rounding error of `len * 0.8` is below half an ulp of `0.8·len`).
* Host library primitives (`Date.parse`, `String(x)` on numbers) are modelled by
  explicit functions documented at their definition; no theorem depends on the
  host-specific lenient behaviours left out of those models.
-/

namespace ExcelChat

/-- A JavaScript runtime value as it occurs in spreadsheet cells and query results.
`num` carries the exact rational value of the double; `nan` is the double NaN. -/
inductive JSVal where
  | num (q : ℚ)
  | nan
  | str (s : String)
  | boolV (b : Bool)
  | null
  | undefined
deriving DecidableEq, Repr

/-- JS truthiness: `0`, `NaN`, the empty string, `false`, `null` and `undefined`
are falsy, everything else is truthy. -/
def jsFalsy : JSVal → Bool
  | .num q => q == 0
  | .nan => true
  | .str s => s == ""
  | .boolV b => !b
  | .null => true
  | .undefined => true

/-- The JS expression `a || b`: `b` when `a` is falsy, else `a`. -/
def jsOr (a b : JSVal) : JSVal := if jsFalsy a then b else a

/-- The JS loose test `val != null`, true exactly for `null` and `undefined`. -/
def jsNullish : JSVal → Bool
  | .null => true
  | .undefined => true
  | _ => false

/-- ASCII whitespace stripped by JS `Number(string)` conversion. -/
def isSpaceChar (c : Char) : Bool :=
  c == ' ' || c == '\t' || c == '\n' || c == '\r'

/-- Numeric value of a list of decimal digit characters. -/
def digitsVal (cs : List Char) : ℕ :=
  cs.foldl (fun a c => 10 * a + (c.toNat - 48)) 0

/-- Model of JS `Number(string)`: trims whitespace, an empty remainder converts to
`0`, otherwise an optional sign followed by a decimal literal (`123`, `1.5`, `.5`,
`5.`); any other string converts to NaN (`none`). Hexadecimal, exponent and
`Infinity` forms of the host are not modelled; no theorem exercises them. -/
def strToNumber (s : String) : Option ℚ :=
  let cs := (s.data.dropWhile isSpaceChar).reverse.dropWhile isSpaceChar |>.reverse
  match cs with
  | [] => some 0
  | _ =>
    let signed : ℤ × List Char :=
      match cs with
      | '-' :: r => (-1, r)
      | '+' :: r => (1, r)
      | _ => (1, cs)
    let intPart := signed.2.takeWhile Char.isDigit
    let rest := signed.2.dropWhile Char.isDigit
    match rest with
    | [] =>
      if intPart.isEmpty then none
      else some ((signed.1 : ℚ) * (digitsVal intPart : ℚ))
    | '.' :: frac =>
      if frac.all Char.isDigit && !(intPart.isEmpty && frac.isEmpty) then
        some ((signed.1 : ℚ) *
          ((digitsVal intPart : ℚ) + (digitsVal frac : ℚ) / (10 : ℚ) ^ frac.length))
      else none
    | _ => none

/-- Model of JS `Number(val)`; `none` is NaN. `Number(null) = 0`,
`Number(undefined) = NaN`, booleans convert to 0/1, strings parse per
`strToNumber`. -/
def jsToNumber : JSVal → Option ℚ
  | .num q => some q
  | .nan => none
  | .str s => strToNumber s
  | .boolV b => some (if b then 1 else 0)
  | .null => some 0
  | .undefined => none

/-- Model of JS number-to-string conversion, exact for integers — the only
numeric values any theorem in this development stringifies. A non-integer is
rendered as numerator/denominator, a deviation from the host's decimal notation
that no theorem exercises. -/
def qToString (q : ℚ) : String :=
  if q.den == 1 then toString q.num
  else toString q.num ++ "/" ++ toString q.den

/-- Model of JS `String(val)`. -/
def jsToString : JSVal → String
  | .num q => qToString q
  | .nan => "NaN"
  | .str s => s
  | .boolV b => if b then "true" else "false"
  | .null => "null"
  | .undefined => "undefined"

/-- Whether `hay` starts with `needle` (character lists). -/
def listStarts : List Char → List Char → Bool
  | _, [] => true
  | [], _ :: _ => false
  | h :: hs, n :: ns => h == n && listStarts hs ns

/-- Whether `needle` occurs contiguously anywhere in `hay` (character lists). -/
def listHas : List Char → List Char → Bool
  | [], needle => needle.isEmpty
  | h :: t, needle => listStarts (h :: t) needle || listHas t needle

/-- Model of JS `hay.includes(needle)`: contiguous substring containment. -/
def strContains (hay needle : String) : Bool :=
  listHas hay.data needle.data

/-- Model of JS `s.toLowerCase()` over the underlying character list (ASCII
lowering; every string the program lower-cases in this development is ASCII). -/
def strLower (s : String) : String :=
  String.mk (s.data.map Char.toLower)

/-- The column type tags of `types.ts` (`DataColumn.type`). -/
inductive ColType where
  | number
  | string
  | boolean
  | date
deriving DecidableEq, Repr

/-- `DataColumn` of `types.ts`. The source field `type` is a Lean keyword and is
named `ty` here. -/
structure DataColumn where
  name : String
  ty : ColType
  values : List JSVal
deriving DecidableEq, Repr

/-- A row-record: the JS object built per data row, as an insertion-ordered
association list from column name to cell value. -/
abbrev Row := List (String × JSVal)

/-- `DataSet` of `types.ts`. -/
structure DataSet where
  columns : List DataColumn
  rows : List Row
  fileName : String
deriving DecidableEq, Repr

/-- JS property access `row[key]`: the stored value, or `undefined` when the key
is absent. -/
def rowGet (row : Row) (k : String) : JSVal :=
  match row.find? (fun p => p.1 == k) with
  | some p => p.2
  | none => .undefined

/-- JS array indexing `row[i]`: `undefined` beyond the end. -/
def getCell (row : List JSVal) (i : ℕ) : JSVal :=
  row.getD i .undefined

/-- The numeric test of `inferType` (excelProcessor.ts line 73):
`!isNaN(Number(val)) && val !== ''`. -/
def isNumericCell (v : JSVal) : Bool :=
  (jsToNumber v).isSome && !(v == .str "")

/-- The boolean test of `inferType` (lines 79-82): a boolean primitive, or a
string whose lower-casing is one of "true","false","yes","no","1","0". -/
def isBooleanCell (v : JSVal) : Bool :=
  match v with
  | .boolV _ => true
  | .str s => ["true", "false", "yes", "no", "1", "0"].contains ( strLower s)
  | _ => false

/-- Model of the host's `Date.parse(s)` succeeding: accepts the ISO
`YYYY-MM-DD` shape (ten characters, digits with hyphens at positions 4 and 7).
The host's additional lenient formats are not modelled; no theorem depends on
the date branch's verdict on a non-ISO string. -/
def isDateString (s : String) : Bool :=
  match s.data with
  | [y1, y2, y3, y4, '-', m1, m2, '-', d1, d2] =>
    [y1, y2, y3, y4, m1, m2, d1, d2].all Char.isDigit
  | _ => false

/-- The date test of `inferType` (line 88): `!isNaN(Date.parse(val))`, where the
host coerces a non-string argument to its string form first. -/
def isDateCell (v : JSVal) : Bool :=
  isDateString (jsToString v)

/-- `inferType` (excelProcessor.ts lines 69-94). Each branch requires strictly
more than 80% of the values to qualify (`count > values.length * 0.8`, rendered
as `5 * count > 4 * length`); an empty value list is typed `string`. -/
def inferType (values : List JSVal) : ColType :=
  if values.length = 0 then .string
  else if 5 * (values.filter isNumericCell).length > 4 * values.length then .number
  else if 5 * (values.filter isBooleanCell).length > 4 * values.length then .boolean
  else if 5 * (values.filter isDateCell).length > 4 * values.length then .date
  else .string

/-- The value list of column `i`: the cells of that column with `null` and
`undefined` removed by the `val != null` filter (excelProcessor.ts line 58). -/
def columnRawValues (dataRows : List (List JSVal)) (i : ℕ) : List JSVal :=
  (dataRows.map (fun row => getCell row i)).filter (fun v => !jsNullish v)

/-- `inferColumnTypes` (excelProcessor.ts lines 56-67). -/
def inferColumnTypes (headers : List String) (dataRows : List (List JSVal)) :
    List DataColumn :=
  headers.enum.map (fun p =>
    { name := p.2
      ty := inferType (columnRawValues dataRows p.1)
      values := columnRawValues dataRows p.1 })

/-- One row-record (excelProcessor.ts lines 33-39): for each header the cell at
its index, with every falsy cell replaced by `null` (`row[index] || null`). -/
def buildRow (headers : List String) (row : List JSVal) : Row :=
  headers.enum.map (fun p => (p.2, jsOr (getCell row p.1) .null))

/-- All row-records of the dataset. -/
def buildRows (headers : List String) (dataRows : List (List JSVal)) : List Row :=
  dataRows.map (buildRow headers)

/-- The dataset construction performed by `processFile` after the worksheet has
been decoded into a header row and data rows (excelProcessor.ts lines 26-45). -/
def processFile (fileName : String) (headers : List String)
    (dataRows : List (List JSVal)) : DataSet :=
  { columns := inferColumnTypes headers dataRows
    rows := buildRows headers dataRows
    fileName := fileName }

/-- The eight query intents of the dispatch in `processQuery`
(queryProcessor.ts lines 10-47). -/
inductive Intent where
  | average
  | count
  | max
  | min
  | chart
  | comparison
  | filter
  | summary
deriving DecidableEq, Repr

/-- The intent chosen by the nested-if dispatch of `processQuery`
(queryProcessor.ts lines 10-47): the keyword tests run in source order on the
lower-cased query and the first hit wins; no hit falls through to `summary`. -/
def processQueryIntent (query : String) : Intent :=
  let lq := strLower query
  if strContains lq "average" || strContains lq "mean" then .average
  else if strContains lq "count" || strContains lq "how many" then .count
  else if strContains lq "maximum" || strContains lq "max" || strContains lq "highest" then .max
  else if strContains lq "minimum" || strContains lq "min" || strContains lq "lowest" then .min
  else if strContains lq "chart" || strContains lq "graph" || strContains lq "plot" || strContains lq "show" then .chart
  else if strContains lq "compare" || strContains lq "by" then .comparison
  else if strContains lq "where" || strContains lq "filter" then .filter
  else .summary

/-- The claim's reading of the classifier: an explicit ordered rule list,
written from the spec's words (rules 1-7, first match wins). -/
def intentRules : List ((String → Bool) × Intent) :=
  [ (fun lq => strContains lq "average" || strContains lq "mean", .average),
    (fun lq => strContains lq "count" || strContains lq "how many", .count),
    (fun lq => strContains lq "maximum" || strContains lq "max" || strContains lq "highest", .max),
    (fun lq => strContains lq "minimum" || strContains lq "min" || strContains lq "lowest", .min),
    (fun lq => strContains lq "chart" || strContains lq "graph" || strContains lq "plot" || strContains lq "show", .chart),
    (fun lq => strContains lq "compare" || strContains lq "by", .comparison),
    (fun lq => strContains lq "where" || strContains lq "filter", .filter) ]

/-- First-match-wins evaluation of an ordered rule list, defaulting to
`summary`. -/
def firstMatchingIntent : List ((String → Bool) × Intent) → String → Intent
  | [], _ => .summary
  | r :: rs, lq => if r.1 lq then r.2 else firstMatchingIntent rs lq

/-- A structured filter condition (`extractConditions` output,
queryProcessor.ts lines 407-439). `value` is a raw JS value: a number or NaN
for number-typed columns, a string — or `undefined`, see the C5 analysis —
otherwise. -/
structure Condition where
  column : String
  operator : String
  value : JSVal
deriving DecidableEq, Repr

/-- A regex `\w` word character: ASCII letter, digit or underscore. -/
def isWordChar (c : Char) : Bool :=
  c.isAlphanum || c == '_'

/-- Maximal leading `\w+` run and the remainder. -/
def takeWord (cs : List Char) : List Char × List Char :=
  (cs.takeWhile isWordChar, cs.dropWhile isWordChar)

/-- Maximal leading `\s+` run and the remainder. -/
def takeSpaces (cs : List Char) : List Char × List Char :=
  (cs.takeWhile isSpaceChar, cs.dropWhile isSpaceChar)

/-- The operator alternation `(>|<|=|>=|<=)` of the first pattern. Its net
effect under the regex engine's backtracking is: a two-character operator when
`=` immediately follows `>` or `<`, else the single character. -/
def matchOp : List Char → Option (String × List Char)
  | '>' :: '=' :: rest => some (">=", rest)
  | '<' :: '=' :: rest => some ("<=", rest)
  | '>' :: rest => some (">", rest)
  | '<' :: rest => some ("<", rest)
  | '=' :: rest => some ("=", rest)
  | _ => none

/-- One attempted match of `(\w+)\s*(>|<|=|>=|<=)\s*(\w+)` anchored at the head
of `cs`: the two captured words, the operator, and the remainder after the
match. Word characters, whitespace and operator characters are pairwise
disjoint, so maximal munch coincides with the regex engine's backtracking
search. -/
def matchCmpAt (cs : List Char) : Option ((String × String × String) × List Char) :=
  let w1 := takeWord cs
  if w1.1.isEmpty then none
  else
    let r2 := w1.2.dropWhile isSpaceChar
    match matchOp r2 with
    | none => none
    | some (op, r3) =>
      let r4 := r3.dropWhile isSpaceChar
      let w3 := takeWord r4
      if w3.1.isEmpty then none
      else some ((String.mk w1.1, op, String.mk w3.1), w3.2)

/-- Global scan of the comparison pattern: try a match at every position, emit
each match and resume after its end (the regex `g`-flag loop of
`extractConditions`). A successful match consumes at least one character, so a
fuel of the list length suffices exactly. -/
def scanCmpAux : ℕ → List Char → List (String × String × String)
  | 0, _ => []
  | _, [] => []
  | fuel + 1, c :: rest =>
    match matchCmpAt (c :: rest) with
    | some (m, r) => m :: scanCmpAux fuel r
    | none => scanCmpAux fuel rest

/-- All matches of `(\w+)\s*(>|<|=|>=|<=)\s*(\w+)` in the text. -/
def scanCmp (cs : List Char) : List (String × String × String) :=
  scanCmpAux cs.length cs

/-- One attempted match of `(\w+)\s+KW[s?]\s+(\w+)` anchored at the head of
`cs`, where `kw` is the literal keyword (`is` or `equal`) and `optS` allows an
optional greedy trailing `s` (for `equals?`), retried without the `s` when the
rest of the pattern fails — the regex engine's backtracking on `s?`. -/
def matchKwAt (kw : List Char) (optS : Bool) (cs : List Char) :
    Option ((String × String) × List Char) :=
  let w1 := takeWord cs
  if w1.1.isEmpty then none
  else
    let sp1 := takeSpaces w1.2
    if sp1.1.isEmpty then none
    else if listStarts sp1.2 kw then
      let afterKw := sp1.2.drop kw.length
      let attempt : List Char → Option (String × List Char) := fun r =>
        let sp2 := takeSpaces r
        if sp2.1.isEmpty then none
        else
          let w2 := takeWord sp2.2
          if w2.1.isEmpty then none else some (String.mk w2.1, w2.2)
      let res :=
        if optS then
          match afterKw with
          | 's' :: r3 =>
            match attempt r3 with
            | some ok => some ok
            | none => attempt afterKw
          | _ => attempt afterKw
        else attempt afterKw
      match res with
      | some (w2, r5) => some ((String.mk w1.1, w2), r5)
      | none => none
    else none

/-- Global scan of a keyword pattern, as `scanCmpAux`. -/
def scanKwAux (kw : List Char) (optS : Bool) : ℕ → List Char → List (String × String)
  | 0, _ => []
  | _, [] => []
  | fuel + 1, c :: rest =>
    match matchKwAt kw optS (c :: rest) with
    | some (m, r) => m :: scanKwAux kw optS fuel r
    | none => scanKwAux kw optS fuel rest

/-- All matches of `(\w+)\s+is\s+(\w+)` in the text. -/
def scanIsPat (cs : List Char) : List (String × String) :=
  scanKwAux ['i', 's'] false cs.length cs

/-- All matches of `(\w+)\s+equals?\s+(\w+)` in the text. -/
def scanEqualPat (cs : List Char) : List (String × String) :=
  scanKwAux ['e', 'q', 'u', 'a', 'l'] true cs.length cs

/-- Column resolution of `extractConditions` (queryProcessor.ts lines 424-426):
first column whose lower-cased name contains the token or is contained in it.
The token is already lower-case because the whole query was lower-cased. -/
def findMatchingColumn (ds : DataSet) (token : String) : Option DataColumn :=
  ds.columns.find? (fun col =>
    strContains (strLower col.name) token || strContains token (strLower col.name))

/-- `Number(value)` on a captured string, as stored into a condition. -/
def jsNumOfString (s : String) : JSVal :=
  match strToNumber s with
  | some q => .num q
  | none => .nan

/-- The `operator || '='` default of queryProcessor.ts line 431. -/
def opOrEq (op : String) : String :=
  if op == "" then "=" else op

/-- `extractConditions` (queryProcessor.ts lines 407-439). All three patterns
are scanned in order over the lower-cased query. Every pattern's match is
destructured as `[, column, operator, value]`; for the two-group patterns
(`is` / `equals?`) this makes `operator` the second captured word and leaves
`value` as `undefined` (so `Number(value)` is NaN for number-typed columns). -/
def extractConditions (ds : DataSet) (query : String) : List Condition :=
  let lq := (strLower query).data
  let fromCmp := (scanCmp lq).filterMap (fun t =>
    (findMatchingColumn ds t.1).map (fun col =>
      { column := col.name
        operator := opOrEq t.2.1
        value := if col.ty == .number then jsNumOfString t.2.2 else .str t.2.2 }))
  let fromKw : List (String × String) → List Condition := fun ms =>
    ms.filterMap (fun p =>
      (findMatchingColumn ds p.1).map (fun col =>
        { column := col.name
          operator := opOrEq p.2
          value := if col.ty == .number then JSVal.nan else JSVal.undefined }))
  fromCmp ++ fromKw (scanIsPat lq) ++ fromKw (scanEqualPat lq)

/-- Numeric comparison of two JS values after `Number` coercion; any comparison
involving NaN is false. -/
def jsNumRel (rel : ℚ → ℚ → Prop) [DecidableRel rel] (a b : JSVal) : Bool :=
  match jsToNumber a, jsToNumber b with
  | some x, some y => decide (rel x y)
  | _, _ => false

/-- One condition evaluated on one row: the `switch` of `applyFilters`
(queryProcessor.ts lines 447-459). The `=` case and the `default` case both do
case-insensitive substring containment of the stringified cell against the
stringified filter value. -/
def evalCondition (row : Row) (c : Condition) : Bool :=
  let cellValue := rowGet row c.column
  if c.operator == ">" then jsNumRel (fun x y => y < x) cellValue c.value
  else if c.operator == "<" then jsNumRel (fun x y => x < y) cellValue c.value
  else if c.operator == ">=" then jsNumRel (fun x y => y ≤ x) cellValue c.value
  else if c.operator == "<=" then jsNumRel (fun x y => x ≤ y) cellValue c.value
  else strContains (strLower (jsToString cellValue)) (strLower (jsToString c.value))

/-- `applyFilters` (queryProcessor.ts lines 441-462): keep the rows on which
every condition holds. -/
def applyFilters (ds : DataSet) (conditions : List Condition) : List Row :=
  ds.rows.filter (fun row => conditions.all (evalCondition row))

/-- The chart kinds of `types.ts` (`ChartData.type`). -/
inductive ChartType where
  | bar
  | line
  | pie
  | area
deriving DecidableEq, Repr

/-- One element of a chart's `data` array. Distribution and histogram points are
`{name, count, value}`; grouped-analysis points additionally carry `average`,
modelled by the optional field (absent elsewhere, `none` by default). -/
structure ChartPoint where
  name : String
  count : ℕ
  average : Option ℚ := none
  value : ℚ
deriving DecidableEq, Repr

/-- `ChartData` of `types.ts`; the source field `type` is named `cty` here. -/
structure ChartData where
  cty : ChartType
  data : List ChartPoint
  xKey : String
  yKey : String
  title : String
deriving DecidableEq, Repr

/-- `TableData` of `types.ts`. -/
structure TableData where
  headers : List String
  rows : List (List JSVal)
  title : String
deriving DecidableEq, Repr

/-- `QueryResult` of `types.ts` as the tagged union it is used as: a text
result, a text plus table, or a text plus chart. -/
inductive QueryResult where
  | text (content : String)
  | table (content : String) (t : TableData)
  | chart (content : String) (c : ChartData)
deriving DecidableEq, Repr

/-- `Math.min(...values)` on a nonempty spread; `none` stands for the
`Infinity` produced on an empty one. -/
def listMinQ : List ℚ → Option ℚ
  | [] => none
  | x :: xs => some (xs.foldl min x)

/-- `Math.max(...values)` on a nonempty spread; `none` stands for the
`-Infinity` produced on an empty one. -/
def listMaxQ : List ℚ → Option ℚ
  | [] => none
  | x :: xs => some (xs.foldl max x)

/-- Mean of the successfully coerced values, `sum / length`; `none` is the NaN
produced by the unguarded `0 / 0` when no value coerced. -/
def jsAverage (values : List ℚ) : Option ℚ :=
  if values.length = 0 then none else some (values.sum / (values.length : ℚ))

/-- Two-decimal-digit rendering helper for `toFixed`. -/
def twoDigits (k : ℕ) : String :=
  (if k < 10 then "0" else "") ++ toString k

/-- Model of JS `q.toFixed(2)` for the exactly representable values this
development evaluates it on: round to the nearest hundredth, ties toward the
larger integer numerator, as the ECMAScript `toFixed` algorithm prescribes. -/
def qToFixed2 (q : ℚ) : String :=
  let n := (q * 100 + 1 / 2).floor
  (if n < 0 then "-" else "") ++ toString (n.natAbs / 100) ++ "." ++ twoDigits (n.natAbs % 100)

/-- Model of JS `q.toFixed(1)`, as `qToFixed2` with one digit. -/
def qToFixed1 (q : ℚ) : String :=
  let n := (q * 10 + 1 / 2).floor
  (if n < 0 then "-" else "") ++ toString (n.natAbs / 10) ++ "." ++ toString (n.natAbs % 10)

/-- `avg.toFixed(2)` where the average may be the NaN of an empty coercion list:
`NaN.toFixed(2)` is the string "NaN". -/
def avgToFixed2 : Option ℚ → String
  | none => "NaN"
  | some q => qToFixed2 q

/-- The coerced numeric values of a column:
`col.values.map(v => Number(v)).filter(v => !isNaN(v))`. -/
def coercedValues (col : DataColumn) : List ℚ :=
  col.values.filterMap jsToNumber

/-- `handleAverageQuery` (queryProcessor.ts lines 49-85). The per-column mean is
computed as `sum / length` with no guard for a zero-length coercion list; in
that case the JS division yields NaN and the answer text reports "NaN". -/
def handleAverageQuery (ds : DataSet) (query : String) : QueryResult :=
  let numericColumns := ds.columns.filter (fun col => col.ty == .number)
  if numericColumns.isEmpty then
    .text "No numeric columns found for calculating averages."
  else
    match numericColumns.find? (fun col => strContains (strLower query) (strLower col.name)) with
    | some col =>
      .text ("The average " ++ col.name ++ " is "
        ++ avgToFixed2 (jsAverage (coercedValues col)) ++ ".")
    | none =>
      let averages := numericColumns.map (fun col =>
        col.name ++ ": " ++ avgToFixed2 (jsAverage (coercedValues col)))
      .text ("Average values:\n" ++ String.intercalate "\n" averages)

/-- `handleCountQuery` (queryProcessor.ts lines 87-104). -/
def handleCountQuery (ds : DataSet) (query : String) : QueryResult :=
  let totalRows := ds.rows.length
  let conditions := extractConditions ds query
  if conditions.length > 0 then
    let filteredRows := applyFilters ds conditions
    .text ("Found " ++ toString filteredRows.length
      ++ " rows matching your criteria out of " ++ toString totalRows ++ " total rows.")
  else
    .text ("Total number of records: " ++ toString totalRows)

/-- `handleMaxQuery` (queryProcessor.ts lines 106-127). `Math.max` of an empty
spread is `-Infinity`, rendered as its JS string. -/
def handleMaxQuery (ds : DataSet) (query : String) : QueryResult :=
  let numericColumns := ds.columns.filter (fun col => col.ty == .number)
  match numericColumns.find? (fun col => strContains (strLower query) (strLower col.name)) with
  | some col =>
    let mx := match listMaxQ (coercedValues col) with
      | some q => qToString q
      | none => "-Infinity"
    .text ("The maximum " ++ col.name ++ " is " ++ mx ++ ".")
  | none =>
    .text "Please specify which column you want to find the maximum for."

/-- `handleMinQuery` (queryProcessor.ts lines 129-150). -/
def handleMinQuery (ds : DataSet) (query : String) : QueryResult :=
  let numericColumns := ds.columns.filter (fun col => col.ty == .number)
  match numericColumns.find? (fun col => strContains (strLower query) (strLower col.name)) with
  | some col =>
    let mn := match listMinQ (coercedValues col) with
      | some q => qToString q
      | none => "Infinity"
    .text ("The minimum " ++ col.name ++ " is " ++ mn ++ ".")
  | none =>
    .text "Please specify which column you want to find the minimum for."

/-- `handleFilterQuery` (queryProcessor.ts lines 214-240): a text answer when no
row matches, else a table of the first ten matching rows (each falsy cell
rendered as the empty string by `row[header] || ''`) with a lead-in stating the
total match count. -/
def handleFilterQuery (ds : DataSet) (query : String) : QueryResult :=
  let conditions := extractConditions ds query
  let filteredRows := applyFilters ds conditions
  if filteredRows.length = 0 then
    .text "No records match your filter criteria."
  else
    let headers := ds.columns.map DataColumn.name
    .table ("Found " ++ toString filteredRows.length ++ " matching records:")
      { headers := headers
        rows := (filteredRows.take 10).map (fun row =>
          headers.map (fun header => jsOr (rowGet row header) (.str "")))
        title := "Filtered Results" }

/-- Insertion-ordered counting map update:
`counts[key] = (counts[key] || 0) + 1`. The JS object preserves insertion order
for the non-index-like string keys used here. -/
def bumpAssoc : List (String × ℕ) → String → List (String × ℕ)
  | [], k => [(k, 1)]
  | (k', n) :: rest, k =>
    if k' == k then (k', n + 1) :: rest else (k', n) :: bumpAssoc rest k

/-- `createDistributionChart` (queryProcessor.ts lines 262-295): occurrence
counts of `String(value || 'Unknown')` over the column's stored values. -/
def createDistributionChart (ds : DataSet) (columnName : String)
    (chartType : ChartType) : QueryResult :=
  match ds.columns.find? (fun col => col.name == columnName) with
  | none => .text ("Column " ++ columnName ++ " not found.")
  | some column =>
    let counts := column.values.foldl (fun acc value =>
      bumpAssoc acc (jsToString (jsOr value (.str "Unknown")))) []
    let data := counts.map (fun p =>
      ({ name := p.1, count := p.2, value := (p.2 : ℚ) } : ChartPoint))
    .chart ("Distribution of " ++ columnName ++ ":")
      { cty := chartType, data := data, xKey := "name", yKey := "count"
        title := columnName ++ " Distribution" }

/-- The histogram bin index `Math.min(Math.floor((v - min) / binSize), 9)`
(queryProcessor.ts line 314). When `binSize` is zero (all coercible values
equal) the JS division is `0 / 0 = NaN`, and `Math.floor` and `Math.min`
propagate it: the index is NaN, modelled as `none`. -/
def binIndexJS (mn binSize v : ℚ) : Option ℤ :=
  if binSize = 0 then none
  else some (min (Int.floor ((v - mn) / binSize)) 9)

/-- The histogram bin label (queryProcessor.ts lines 315-317). With a NaN bin
index, `binStart = min + NaN * binSize` is NaN and both `toFixed(1)` renderings
are the string "NaN". -/
def binLabelJS (mn binSize v : ℚ) : String :=
  match binIndexJS mn binSize v with
  | none => "NaN-NaN"
  | some i =>
    let binStart := mn + (i : ℚ) * binSize
    qToFixed1 binStart ++ "-" ++ qToFixed1 (binStart + binSize)

/-- The bin-count map built by the `values.forEach` of `createNumericChart`. -/
def histogramBins (mn binSize : ℚ) (values : List ℚ) : List (String × ℕ) :=
  values.foldl (fun acc v => bumpAssoc acc (binLabelJS mn binSize v)) []

/-- `createNumericChart` (queryProcessor.ts lines 297-338): a ten-bin histogram
over the coerced values. With no coercible value the `forEach` adds nothing and
the chart is emitted with an empty data array. -/
def createNumericChart (ds : DataSet) (columnName : String)
    (chartType : ChartType) : QueryResult :=
  match ds.columns.find? (fun col => col.name == columnName) with
  | none => .text ("Column " ++ columnName ++ " not found.")
  | some column =>
    let values := coercedValues column
    let bins :=
      match listMinQ values, listMaxQ values with
      | some mn, some mx => histogramBins mn ((mx - mn) / 10) values
      | _, _ => []
    let data := bins.map (fun p =>
      ({ name := p.1, count := p.2, value := (p.2 : ℚ) } : ChartPoint))
    .chart ("Distribution of " ++ columnName ++ ":")
      { cty := chartType, data := data, xKey := "name", yKey := "count"
        title := columnName ++ " Distribution" }

/-- `handleChartQuery` (queryProcessor.ts lines 152-187). -/
def handleChartQuery (ds : DataSet) (query : String) : QueryResult :=
  let lq := strLower query
  let chartType : ChartType :=
    if strContains lq "line" then .line
    else if strContains lq "pie" then .pie
    else if strContains lq "area" then .area
    else .bar
  match ds.columns.find? (fun col => strContains lq (strLower col.name)) with
  | none =>
    match ds.columns.find? (fun col => col.ty == .string) with
    | some categoricalCol => createDistributionChart ds categoricalCol.name chartType
    | none => .text "Unable to determine what to chart. Please specify a column name."
  | some xColumn =>
    if xColumn.ty == .string then createDistributionChart ds xColumn.name chartType
    else if xColumn.ty == .number then createNumericChart ds xColumn.name chartType
    else .text "Unable to determine what to chart. Please specify a column name."

/-- Insertion-ordered grouping map update: `groups[key].push(row)` with lazy
array creation. -/
def appendGroup : List (String × List Row) → String → Row → List (String × List Row)
  | [], k, row => [(k, [row])]
  | (k', rs) :: rest, k, row =>
    if k' == k then (k', rs ++ [row]) :: rest else (k', rs) :: appendGroup rest k row

/-- `createGroupedAnalysis` (queryProcessor.ts lines 340-405): group the rows by
the stringified group-by cell (`String(row[col] || 'Unknown')`), then chart the
per-group mean of the first other number-typed column, or per-group counts when
no such column exists. The per-group mean is explicitly guarded to 0 on an
empty coercion list. -/
def createGroupedAnalysis (ds : DataSet) (groupByColumn : String) : QueryResult :=
  match ds.columns.find? (fun col => col.name == groupByColumn) with
  | none => .text ("Column " ++ groupByColumn ++ " not found.")
  | some _ =>
    let groups := ds.rows.foldl (fun acc row =>
      appendGroup acc (jsToString (jsOr (rowGet row groupByColumn) (.str "Unknown"))) row) []
    match ds.columns.find? (fun col => col.ty == .number && !(col.name == groupByColumn)) with
    | some numericColumn =>
      let data := groups.map (fun g =>
        let values := g.2.filterMap (fun row => jsToNumber (rowGet row numericColumn.name))
        let avg := if values.length > 0 then values.sum / (values.length : ℚ) else 0
        ({ name := g.1, count := g.2.length, average := some avg, value := avg } : ChartPoint))
      .chart ("Analysis by " ++ groupByColumn ++ ":")
        { cty := .bar, data := data, xKey := "name", yKey := "average"
          title := "Average " ++ numericColumn.name ++ " by " ++ groupByColumn }
    | none =>
      let data := groups.map (fun g =>
        ({ name := g.1, count := g.2.length, value := (g.2.length : ℚ) } : ChartPoint))
      .chart ("Count by " ++ groupByColumn ++ ":")
        { cty := .bar, data := data, xKey := "name", yKey := "count"
          title := "Count by " ++ groupByColumn }

/-- `handleComparisonQuery` (queryProcessor.ts lines 189-212): split the
lower-cased query on spaces, find the literal word "by", and resolve the
group-by column against the words after it by substring containment. -/
def handleComparisonQuery (ds : DataSet) (query : String) : QueryResult :=
  let words := (strLower query).splitOn " "
  match words.findIdx? (fun w => w == "by") with
  | none => .text "Please specify what you want to compare and by which column."
  | some byIndex =>
    match ds.columns.find? (fun col =>
        (words.drop (byIndex + 1)).any (fun word => strContains (strLower col.name) word)) with
    | none => .text "Could not identify the column to group by."
    | some groupByColumn => createGroupedAnalysis ds groupByColumn.name

/-- `handleSummaryQuery` (queryProcessor.ts lines 242-260): per column, the mean
and min-max range for number-typed columns (`Math.min`/`Math.max` of an empty
spread print as the infinities), else the distinct-value count
(`[...new Set(values)].length`). -/
def handleSummaryQuery (ds : DataSet) : QueryResult :=
  let summary := ds.columns.map (fun col =>
    if col.ty == .number then
      let values := coercedValues col
      let mn := match listMinQ values with
        | some q => qToString q
        | none => "Infinity"
      let mx := match listMaxQ values with
        | some q => qToString q
        | none => "-Infinity"
      col.name ++ ": Average " ++ avgToFixed2 (jsAverage values) ++ ", Range " ++ mn ++ "-" ++ mx
    else
      col.name ++ ": " ++ toString col.values.dedup.length ++ " unique values")
  .text ("Data Summary for " ++ ds.fileName ++ ":\n\n" ++ String.intercalate "\n" summary)

/-- `processQuery` (queryProcessor.ts lines 10-47): dispatch on the classified
intent to the corresponding handler. -/
def processQuery (ds : DataSet) (query : String) : QueryResult :=
  match processQueryIntent query with
  | .average => handleAverageQuery ds query
  | .count => handleCountQuery ds query
  | .max => handleMaxQuery ds query
  | .min => handleMinQuery ds query
  | .chart => handleChartQuery ds query
  | .comparison => handleComparisonQuery ds query
  | .filter => handleFilterQuery ds query
  | .summary => handleSummaryQuery ds

/-- The engine step with the dataset state made explicit: the source class holds
the dataset in a field and every statement of every handler only reads it
(filters, maps and folds allocate fresh arrays; the only mutations are of
function-local objects such as `counts`, `bins` and `groups`), so the
state-passing translation returns the held dataset unchanged. -/
def processQueryS (ds : DataSet) (query : String) : QueryResult × DataSet :=
  (processQuery ds query, ds)

/-- Concrete fixture: an `age` column typed number, values 35 and 20. -/
def dsAges : DataSet :=
  { columns := [⟨"age", ColType.number, [JSVal.num 35, JSVal.num 20]⟩]
    rows := [[("age", JSVal.num 35)], [("age", JSVal.num 20)]]
    fileName := "f" }

/-- Concrete fixture: a `status` column typed string. -/
def dsStatus : DataSet :=
  { columns := [⟨"status", ColType.string, [JSVal.str "active", JSVal.str "done"]⟩]
    rows := [[("status", JSVal.str "active")], [("status", JSVal.str "done")]]
    fileName := "f" }

/-- Concrete fixture: an `x` column typed number whose single value does not
coerce to a number. -/
def dsNoNum : DataSet :=
  { columns := [⟨"x", ColType.number, [JSVal.str "abc"]⟩]
    rows := [[("x", JSVal.str "abc")]]
    fileName := "f" }

/-- Concrete fixture: an `x` column typed number with the single value 5
(degenerate histogram range). -/
def dsSingle5 : DataSet :=
  { columns := [⟨"x", ColType.number, [JSVal.num 5]⟩]
    rows := [[("x", JSVal.num 5)]]
    fileName := "f" }

/-- Concrete fixture: an `x` column typed number with values 0 and 10. -/
def dsPair : DataSet :=
  { columns := [⟨"x", ColType.number, [JSVal.num 0, JSVal.num 10]⟩]
    rows := [[("x", JSVal.num 0)], [("x", JSVal.num 10)]]
    fileName := "f" }

theorem enum_snd_map_eq {β : Type} (l : List String) (f : ℕ × String → β) (g : β → String)
    (hg : ∀ p, g (f p) = p.2) : (l.enum.map f).map g = l := by
  rw [List.map_map]
  have hcomp : (g ∘ f) = Prod.snd := funext fun p => hg p
  rw [hcomp, List.enum_map_snd]

theorem mem_enum_fst_lt {α : Type} {p : ℕ × α} {l : List α} (h : p ∈ l.enum) :
    p.1 < l.length :=
  (List.getElem?_eq_some.mp (List.mem_enum_iff_getElem?.mp h)).1

theorem inferColumnTypes_names (headers : List String) (dataRows : List (List JSVal)) :
    (inferColumnTypes headers dataRows).map DataColumn.name = headers :=
  enum_snd_map_eq headers _ DataColumn.name (fun _ => rfl)

theorem buildRow_keys (headers : List String) (row : List JSVal) :
    (buildRow headers row).map Prod.fst = headers :=
  enum_snd_map_eq headers _ Prod.fst (fun _ => rfl)

/-- C1, counterexample: on the one-column, one-row dataset whose only cell is
`null`, ingestion yields one row-record but an empty column value list, so
`rows.length = columns[0].values.length` fails — the `val != null` filter in
`inferColumnTypes` drops null cells from `values` while the row count keeps
them, contradicting the claim's "including when some cells of that column are
null or missing". -/
theorem claim_C1_counterexample :
    (processFile "f" ["a"] [[JSVal.null]]).rows.length = 1 ∧
    (processFile "f" ["a"] [[JSVal.null]]).columns.map (fun c => c.values.length) = [0] ∧
    ¬ (∀ c ∈ (processFile "f" ["a"] [[JSVal.null]]).columns,
        (processFile "f" ["a"] [[JSVal.null]]).rows.length = c.values.length) := by
  decide

/-- C1, amended: for every ingested dataset, every row-record's key sequence is
exactly the header sequence and the column names are exactly the headers (the
key-set half of the claimed invariant holds unconditionally); each column's
value list is at most as long as the row list; and when no positionally
aligned cell is null or undefined, `rows.length = columns[i].values.length`
holds for every column — the claimed length invariant is restored exactly on
null-free data. -/
theorem claim_C1_amended (fileName : String) (headers : List String)
    (dataRows : List (List JSVal)) :
    (processFile fileName headers dataRows).columns.map DataColumn.name = headers ∧
    (∀ r ∈ (processFile fileName headers dataRows).rows, r.map Prod.fst = headers) ∧
    (∀ c ∈ (processFile fileName headers dataRows).columns,
        c.values.length ≤ (processFile fileName headers dataRows).rows.length) ∧
    ((∀ row ∈ dataRows, ∀ i, i < headers.length → jsNullish (getCell row i) = false) →
      ∀ c ∈ (processFile fileName headers dataRows).columns,
        c.values.length = (processFile fileName headers dataRows).rows.length) := by
  refine ⟨inferColumnTypes_names headers dataRows, ?_, ?_, ?_⟩
  · intro r hr
    obtain ⟨row, _, rfl⟩ := List.mem_map.mp hr
    exact buildRow_keys headers row
  · intro c hc
    obtain ⟨p, _, rfl⟩ := List.mem_map.mp hc
    show (columnRawValues dataRows p.1).length ≤ (buildRows headers dataRows).length
    calc (columnRawValues dataRows p.1).length
        ≤ (dataRows.map (fun row => getCell row p.1)).length :=
          List.length_filter_le _ _
      _ = dataRows.length := List.length_map _ _
      _ = (buildRows headers dataRows).length := (List.length_map _ _).symm
  · intro hnn c hc
    obtain ⟨p, hp, rfl⟩ := List.mem_map.mp hc
    have hi : p.1 < headers.length := mem_enum_fst_lt hp
    show (columnRawValues dataRows p.1).length = (buildRows headers dataRows).length
    have hall : ∀ v ∈ dataRows.map (fun row => getCell row p.1), (!jsNullish v) = true := by
      intro v hv
      obtain ⟨row, hrow, rfl⟩ := List.mem_map.mp hv
      rw [hnn row hrow p.1 hi]
      rfl
    rw [columnRawValues, List.filter_eq_self.mpr hall, List.length_map, buildRows,
      List.length_map]

/-- C1, witness: the amended length invariant instantiated on a concrete
null-free dataset. -/
theorem claim_C1_witness :
    ((processFile "g" ["a"] [[JSVal.num 1]]).columns.getD 0 ⟨"", ColType.string, []⟩).values.length
      = (processFile "g" ["a"] [[JSVal.num 1]]).rows.length := by
  have h := (claim_C1_amended "g" ["a"] [[JSVal.num 1]]).2.2.2 (by decide)
  exact h _ (by decide)

/-- C3, counterexample: a column where exactly 80% of the non-null values
qualify as numeric is NOT typed `number` — the source threshold is the strict
`count > values.length * 0.8`, so four numeric values out of five (exactly
80%) fail it and the column falls through to `string`, contradicting the
claim's "at-least-80% ... (including exactly 80%)". -/
theorem claim_C3_counterexample :
    5 * (([JSVal.str "1", JSVal.str "2", JSVal.str "3", JSVal.str "4",
        JSVal.str "hello"].filter isNumericCell).length) = 4 * 5 ∧
    inferType [JSVal.str "1", JSVal.str "2", JSVal.str "3", JSVal.str "4",
        JSVal.str "hello"] = ColType.string ∧
    ¬ inferType [JSVal.str "1", JSVal.str "2", JSVal.str "3", JSVal.str "4",
        JSVal.str "hello"] = ColType.number := by
  decide

/-- C3, amended: the inferrer checks number, then boolean, then date, each with
a strictly-more-than-80% threshold, falling back to string. Any column where
strictly more than 80% of non-null values qualify as numeric is typed `number`
regardless of boolean-like or date-like strings; a column of "1","0","1"
infers `number` and never `boolean`; a column with zero non-null values infers
`string`; and the later branches are reachable in priority order (boolean,
date, string examples). -/
theorem claim_C3_amended :
    (∀ values : List JSVal,
        4 * values.length < 5 * (values.filter isNumericCell).length →
        inferType values = ColType.number) ∧
    inferType [JSVal.str "1", JSVal.str "0", JSVal.str "1"] = ColType.number ∧
    inferType [] = ColType.string ∧
    inferType [JSVal.str "yes", JSVal.str "no"] = ColType.boolean ∧
    inferType [JSVal.str "2020-01-01", JSVal.str "2021-12-31"] = ColType.date ∧
    inferType [JSVal.str "hello", JSVal.str "world"] = ColType.string := by
  refine ⟨?_, by decide, by decide, by decide, by decide, by decide⟩
  intro values h
  have hle := List.length_filter_le isNumericCell values
  have hne : ¬ values.length = 0 := by omega
  have hpos : 5 * (values.filter isNumericCell).length > 4 * values.length := h
  unfold inferType
  rw [if_neg hne, if_pos hpos]

/-- C3, witness: the strict-majority numeric rule instantiated on a singleton
numeric column. -/
theorem claim_C3_witness : inferType [JSVal.num 7] = ColType.number :=
  claim_C3_amended.1 [JSVal.num 7] (by decide)

/-- C4: the intent dispatch is exactly first-match-wins over the fixed ordered
rule list Average, Count, Max, Min, Chart, Comparison, Filter evaluated on the
lower-cased text, with Summary as the no-match default; in particular
"show average sales" classifies as Average (it also matches the Chart rule via
"show", but the Average rule is evaluated first), and any text matching no rule
classifies as Summary. -/
theorem claim_C4 :
    (∀ query : String,
        processQueryIntent query = firstMatchingIntent intentRules (strLower query)) ∧
    processQueryIntent "show average sales" = Intent.average ∧
    strContains (strLower "show average sales") "show" = true ∧
    (∀ query : String,
        (intentRules.all fun r => !(r.1 (strLower query))) = true →
        processQueryIntent query = Intent.summary) := by
  refine ⟨fun query => rfl, by decide, by decide, ?_⟩
  intro query h
  simp only [intentRules, List.all_cons, List.all_nil, Bool.and_eq_true, Bool.not_eq_eq_eq_not,
    Bool.not_true] at h
  obtain ⟨h1, h2, h3, h4, h5, h6, h7, -⟩ := h
  simp only [processQueryIntent, h1, h2, h3, h4, h5, h6, h7, if_false, Bool.false_eq_true]

/-- C4, witness: a keyword-free text classifies as Summary. -/
theorem claim_C4_witness : processQueryIntent "hello" = Intent.summary :=
  claim_C4.2.2.2 "hello" (by decide)

/-- C5: evaluation of the extractor at the failing inputs. For a string-typed
column `status`, the question "status is active" yields a condition whose
operator is the VALUE token "active" and whose value is `undefined` — not
operator "=" with value "active" as the claim states — because the two-group
`is`/`equals?` matches are destructured as `[, column, operator, value]`, a
three-group shape; the same happens for "equals" and, on a number-typed
column, the value becomes `Number(undefined) = NaN` instead of the coerced
number. The dead `operator || '='` default in the source shows the claimed
behaviour was the intent. -/
theorem claim_C5_bug :
    extractConditions dsStatus "status is active"
      = [⟨"status", "active", JSVal.undefined⟩] ∧
    extractConditions dsStatus "status equals active"
      = [⟨"status", "active", JSVal.undefined⟩] ∧
    extractConditions dsAges "age is 30" = [⟨"age", "30", JSVal.nan⟩] := by
  decide

/-- C2: evaluation of the Average handler at the failing input. On a
number-typed column with zero coercible values the per-column mean is computed
as the unguarded `sum / length = 0 / 0 = NaN`, and the handler answers
"The average x is NaN." — an undefined mean in a plain Text result, not the
explanatory error text the claim requires. -/
theorem claim_C2_bug :
    handleAverageQuery dsNoNum "average x" = QueryResult.text "The average x is NaN." ∧
    (dsNoNum.columns.map DataColumn.ty = [ColType.number] ∧
      coercedValues ⟨"x", ColType.number, [JSVal.str "abc"]⟩ = []) := by
  decide

/-- Unfolding of `jsNumRel` into existence of both coercions plus the relation. -/
theorem jsNumRel_eq_true_iff (rel : ℚ → ℚ → Prop) [DecidableRel rel] (a b : JSVal) :
    jsNumRel rel a b = true ↔
      ∃ x y, jsToNumber a = some x ∧ jsToNumber b = some y ∧ rel x y := by
  constructor
  · intro h
    unfold jsNumRel at h
    rcases ha : jsToNumber a with _ | x
    · rw [ha] at h; simp at h
    · rcases hb : jsToNumber b with _ | y
      · rw [ha, hb] at h; simp at h
      · rw [ha, hb] at h
        exact ⟨x, y, rfl, rfl, of_decide_eq_true h⟩
  · rintro ⟨x, y, hx, hy, h⟩
    unfold jsNumRel
    rw [hx, hy]
    exact decide_eq_true h

/-- C6: filtering semantics. An empty condition list keeps every row; a row
passes the filter exactly when it is a dataset row on which every condition
holds (AND semantics); each comparison operator holds exactly when both the
cell and the filter value coerce to numbers standing in that order (NaN on
either side compares false); the `=` operator holds exactly when the
lower-cased stringified cell CONTAINS the lower-cased stringified filter value
— containment, not equality, as the concrete cell "Eastern" matching the
filter value "east" shows. -/
theorem claim_C6 :
    (∀ ds : DataSet, applyFilters ds [] = ds.rows) ∧
    (∀ (ds : DataSet) (conds : List Condition) (row : Row),
        row ∈ applyFilters ds conds ↔
          row ∈ ds.rows ∧ ∀ c ∈ conds, evalCondition row c = true) ∧
    (∀ (row : Row) (c : Condition), c.operator = "=" →
        (evalCondition row c = true ↔
          strContains (strLower (jsToString (rowGet row c.column)))
            (strLower (jsToString c.value)) = true)) ∧
    (∀ (row : Row) (c : Condition), c.operator = ">" →
        (evalCondition row c = true ↔
          ∃ x y, jsToNumber (rowGet row c.column) = some x ∧
            jsToNumber c.value = some y ∧ y < x)) ∧
    (∀ (row : Row) (c : Condition), c.operator = "<" →
        (evalCondition row c = true ↔
          ∃ x y, jsToNumber (rowGet row c.column) = some x ∧
            jsToNumber c.value = some y ∧ x < y)) ∧
    (∀ (row : Row) (c : Condition), c.operator = ">=" →
        (evalCondition row c = true ↔
          ∃ x y, jsToNumber (rowGet row c.column) = some x ∧
            jsToNumber c.value = some y ∧ y ≤ x)) ∧
    (∀ (row : Row) (c : Condition), c.operator = "<=" →
        (evalCondition row c = true ↔
          ∃ x y, jsToNumber (rowGet row c.column) = some x ∧
            jsToNumber c.value = some y ∧ x ≤ y)) ∧
    (evalCondition [("city", JSVal.str "Eastern")] ⟨"city", "=", JSVal.str "east"⟩ = true ∧
      ¬ jsToString (rowGet [("city", JSVal.str "Eastern")] "city")
          = jsToString (JSVal.str "east")) := by
  refine ⟨?_, ?_, ?_, ?_, ?_, ?_, ?_, by decide⟩
  · intro ds
    simp [applyFilters]
  · intro ds conds row
    simp [applyFilters, List.mem_filter, List.all_eq_true]
  · rintro row ⟨col, op, v⟩ h
    cases h
    exact Iff.rfl
  · rintro row ⟨col, op, v⟩ h
    cases h
    exact jsNumRel_eq_true_iff _ _ _
  · rintro row ⟨col, op, v⟩ h
    cases h
    exact jsNumRel_eq_true_iff _ _ _
  · rintro row ⟨col, op, v⟩ h
    cases h
    exact jsNumRel_eq_true_iff _ _ _
  · rintro row ⟨col, op, v⟩ h
    cases h
    exact jsNumRel_eq_true_iff _ _ _

/-- C6, witness: a numeric greater-than condition holding on a concrete row. -/
theorem claim_C6_witness :
    evalCondition [("age", JSVal.num 35)] ⟨"age", ">", JSVal.num 30⟩ = true :=
  (claim_C6.2.2.2.1 [("age", JSVal.num 35)] ⟨"age", ">", JSVal.num 30⟩ rfl).mpr
    ⟨35, 30, rfl, rfl, by norm_num⟩

/-- C7: the Filter handler. When no row matches it answers a fixed Text result
and never an empty Table; when at least one row matches it answers a Table
whose headers are all dataset column names, whose body is the first at-most-10
matching rows (in original order: the match list is a sublist of the dataset
rows and the table takes its prefix), and whose lead-in text states the TOTAL
match count even when the table is truncated to 10. -/
theorem claim_C7 (ds : DataSet) (query : String) :
    (applyFilters ds (extractConditions ds query) = [] →
      handleFilterQuery ds query = QueryResult.text "No records match your filter criteria.") ∧
    (applyFilters ds (extractConditions ds query) ≠ [] →
      handleFilterQuery ds query =
        QueryResult.table
          ("Found " ++ toString (applyFilters ds (extractConditions ds query)).length
            ++ " matching records:")
          { headers := ds.columns.map DataColumn.name
            rows := ((applyFilters ds (extractConditions ds query)).take 10).map (fun row =>
              (ds.columns.map DataColumn.name).map (fun header =>
                jsOr (rowGet row header) (.str "")))
            title := "Filtered Results" } ∧
      ((applyFilters ds (extractConditions ds query)).take 10).length
          = min 10 (applyFilters ds (extractConditions ds query)).length ∧
      0 < ((applyFilters ds (extractConditions ds query)).take 10).length ∧
      (applyFilters ds (extractConditions ds query)).Sublist ds.rows) := by
  constructor
  · intro h
    simp only [handleFilterQuery, h]
    rfl
  · intro h
    have hlen : ¬ (applyFilters ds (extractConditions ds query)).length = 0 := by
      intro hlen
      exact h (List.length_eq_zero.mp hlen)
    refine ⟨?_, List.length_take 10 _, ?_, List.filter_sublist ds.rows⟩
    · simp only [handleFilterQuery, if_neg hlen]
    · rw [List.length_take]
      omega

/-- C7, witness: a no-condition filter query on the two-row status dataset
returns a Table of both rows with the total count in the lead-in. -/
theorem claim_C7_witness :
    handleFilterQuery dsStatus "filter" =
      QueryResult.table "Found 2 matching records:"
        { headers := ["status"]
          rows := [[JSVal.str "active"], [JSVal.str "done"]]
          title := "Filtered Results" } := by
  have h := ((claim_C7 dsStatus "filter").2 (by decide)).1
  rw [h]
  decide

/-- C9: query processing leaves the dataset unchanged. The state-passing form
of the engine returns the held dataset identically — columns (names, types,
values), rows and fileName included — for every dataset and every question;
the source never assigns to the dataset after construction, so its pure
translation is state-invariant. -/
theorem claim_C9 (ds : DataSet) (query : String) :
    (processQueryS ds query).2 = ds ∧
    (processQueryS ds query).2.columns = ds.columns ∧
    (processQueryS ds query).2.rows = ds.rows ∧
    (processQueryS ds query).2.fileName = ds.fileName :=
  ⟨rfl, rfl, rfl, rfl⟩

/-- C10: the row-record builder maps a column name to `null` whenever the raw
cell at that position is falsy (the `row[index] || null` coercion) — not only
when it is missing — while the column value list keeps such cells (only null
and undefined are filtered from it); concretely, ingesting a single cell `0`
in column `a` yields a number-typed column whose values keep the 0 but a
row-record in which `a` is `null`. -/
theorem claim_C10 :
    (∀ (headers : List String) (row : List JSVal) (i : ℕ) (h : i < headers.length),
        jsFalsy (getCell row i) = true →
        (buildRow headers row)[i]? = some (headers.get ⟨i, h⟩, JSVal.null)) ∧
    processFile "f" ["a"] [[JSVal.num 0]] =
      { columns := [⟨"a", ColType.number, [JSVal.num 0]⟩]
        rows := [[("a", JSVal.null)]]
        fileName := "f" } := by
  constructor
  · intro headers row i h hf
    simp only [buildRow, List.getElem?_map, List.getElem?_enum, List.getElem?_eq_getElem h,
      Option.map_some, Option.map_map, Function.comp, jsOr]
    simp [hf]
  · decide

/-- C10, witness: the falsy-to-null law instantiated on a single zero cell. -/
theorem claim_C10_witness :
    (buildRow ["a"] [JSVal.num 0])[0]? = some ("a", JSVal.null) :=
  claim_C10.1 ["a"] [JSVal.num 0] 0 (by decide) (by decide)

theorem sum_bumpAssoc (l : List (String × ℕ)) (k : String) :
    ((bumpAssoc l k).map Prod.snd).sum = (l.map Prod.snd).sum + 1 := by
  induction l with
  | nil => simp [bumpAssoc]
  | cons p rest ih =>
    obtain ⟨name, n⟩ := p
    by_cases h : (name == k) = true
    · simp [bumpAssoc, h]
      omega
    · simp [bumpAssoc, h, ih]
      omega

theorem sum_bump_foldl (f : ℚ → String) (values : List ℚ) (acc : List (String × ℕ)) :
    (((values.foldl (fun a v => bumpAssoc a (f v)) acc)).map Prod.snd).sum
      = (acc.map Prod.snd).sum + values.length := by
  induction values generalizing acc with
  | nil => simp
  | cons v vs ih =>
    rw [List.foldl_cons, ih, sum_bumpAssoc]
    simp
    omega

theorem foldl_min_le (xs : List ℚ) (x : ℚ) :
    xs.foldl min x ≤ x ∧ ∀ v ∈ xs, xs.foldl min x ≤ v := by
  induction xs generalizing x with
  | nil => simp
  | cons y ys ih =>
    refine ⟨le_trans (ih (min x y)).1 (min_le_left x y), ?_⟩
    intro v hv
    rcases List.mem_cons.mp hv with rfl | hv2
    · exact le_trans (ih (min x v)).1 (min_le_right x v)
    · exact (ih (min x y)).2 v hv2

theorem foldl_max_mem (xs : List ℚ) (x : ℚ) : xs.foldl max x ∈ x :: xs := by
  induction xs generalizing x with
  | nil => simp
  | cons y ys ih =>
    rw [List.foldl_cons]
    rcases List.mem_cons.mp (ih (max x y)) with h1 | h2
    · rcases max_choice x y with hc | hc
      · rw [h1, hc]; exact List.mem_cons_self _ _
      · rw [h1, hc]; exact List.mem_cons_of_mem _ (List.mem_cons_self _ _)
    · exact List.mem_cons_of_mem _ (List.mem_cons_of_mem _ h2)

theorem listMinQ_le (l : List ℚ) (mn : ℚ) (h : listMinQ l = some mn) :
    ∀ v ∈ l, mn ≤ v := by
  cases l with
  | nil => simp [listMinQ] at h
  | cons x xs =>
    simp only [listMinQ, Option.some.injEq] at h
    subst h
    intro v hv
    rcases List.mem_cons.mp hv with rfl | hv2
    · exact (foldl_min_le xs v).1
    · exact (foldl_min_le xs x).2 v hv2

theorem listMaxQ_mem (l : List ℚ) (mx : ℚ) (h : listMaxQ l = some mx) : mx ∈ l := by
  cases l with
  | nil => simp [listMaxQ] at h
  | cons x xs =>
    simp only [listMaxQ, Option.some.injEq] at h
    subst h
    exact foldl_max_mem xs x

/-- C8, counterexample: on a number-typed column whose only coercible value is
5, the range is degenerate (`max = min`), `binSize` is 0, and the JS bin
assignment `min(floor((v - min) / binSize), 9)` is `min(floor(0 / 0), 9) =
NaN` — not an index in the claimed ten bins: the whole histogram is a single
bin labelled "NaN-NaN", and the maximum value does not fall in a 10th bin. -/
theorem claim_C8_counterexample :
    binIndexJS 5 ((5 - 5) / 10) 5 = none ∧
    ¬ binIndexJS 5 ((5 - 5) / 10) 5 = some 9 ∧
    binLabelJS 5 ((5 - 5) / 10) 5 = "NaN-NaN" ∧
    createNumericChart dsSingle5 "x" ChartType.bar =
      QueryResult.chart "Distribution of x:"
        { cty := ChartType.bar
          data := [{ name := "NaN-NaN", count := 1, average := none, value := 1 }]
          xKey := "name", yKey := "count", title := "x Distribution" } := by
  have hz : ((5 : ℚ) - 5) / 10 = 0 := by norm_num
  have hidx : binIndexJS 5 ((5 - 5) / 10) 5 = none := by
    rw [binIndexJS, if_pos hz]
  have hlbl : binLabelJS 5 ((5 - 5) / 10) 5 = "NaN-NaN" := by
    rw [binLabelJS, hidx]
  refine ⟨hidx, by rw [hidx]; exact fun hc => Option.noConfusion hc, hlbl, ?_⟩
  have hfind : dsSingle5.columns.find? (fun col => col.name == "x")
      = some ⟨"x", ColType.number, [JSVal.num 5]⟩ := by decide
  have hvals : coercedValues ⟨"x", ColType.number, [JSVal.num 5]⟩ = [5] := rfl
  rw [createNumericChart, hfind]
  simp only [hvals, listMinQ, listMaxQ, List.foldl_nil, histogramBins, List.foldl_cons, hlbl]
  simp [bumpAssoc]

/-- C8, amended: for every number-typed column resolved by `createNumericChart`
with at least one coercible value, the emitted chart is the histogram of the
coerced values, and the sum of all bin counts equals the number of coercible
values — unconditionally, even in the degenerate single-bin NaN case. When
additionally `min < max` (so `binSize` is positive), every value's bin index
`min(floor((v - min) / binSize), 9)` is defined and lies in 0..9, and the
maximum value falls exactly in the last (10th) bin, index 9 — never an 11th.
The claim holds as stated only under that `min < max` proviso. -/
theorem claim_C8_amended (ds : DataSet) (columnName : String) (ct : ChartType)
    (column : DataColumn)
    (hfind : ds.columns.find? (fun col => col.name == columnName) = some column)
    (mn mx : ℚ)
    (hmn : listMinQ (coercedValues column) = some mn)
    (hmx : listMaxQ (coercedValues column) = some mx) :
    createNumericChart ds columnName ct =
      QueryResult.chart ("Distribution of " ++ columnName ++ ":")
        { cty := ct
          data := (histogramBins mn ((mx - mn) / 10) (coercedValues column)).map (fun p =>
            ({ name := p.1, count := p.2, value := (p.2 : ℚ) } : ChartPoint))
          xKey := "name", yKey := "count", title := columnName ++ " Distribution" } ∧
    ((histogramBins mn ((mx - mn) / 10) (coercedValues column)).map Prod.snd).sum
        = (coercedValues column).length ∧
    (mn < mx → binIndexJS mn ((mx - mn) / 10) mx = some 9) ∧
    (∀ v ∈ coercedValues column, ∀ i, binIndexJS mn ((mx - mn) / 10) v = some i →
        0 ≤ i ∧ i ≤ 9) := by
  have hmnmx : mn ≤ mx := listMinQ_le _ _ hmn mx (listMaxQ_mem _ _ hmx)
  refine ⟨?_, ?_, ?_, ?_⟩
  · rw [createNumericChart, hfind]
    simp only [hmn, hmx]
  · simpa [histogramBins] using
      sum_bump_foldl (binLabelJS mn ((mx - mn) / 10)) (coercedValues column) []
  · intro hlt
    have hne : (mx - mn) / 10 ≠ 0 :=
      ne_of_gt (div_pos (sub_pos.mpr hlt) (by norm_num))
    rw [binIndexJS, if_neg hne]
    have h10 : (mx - mn) / ((mx - mn) / 10) = 10 := by
      rw [div_div_eq_mul_div, mul_comm, mul_div_assoc,
        div_self (sub_ne_zero.mpr (ne_of_gt hlt)), mul_one]
    rw [h10, show ((10 : ℚ)) = ((10 : ℤ) : ℚ) by norm_num, Int.floor_intCast]
    norm_num
  · intro v hv i hi
    rw [binIndexJS] at hi
    by_cases hz : (mx - mn) / 10 = 0
    · rw [if_pos hz] at hi
      exact Option.noConfusion hi
    · rw [if_neg hz] at hi
      have hbs : 0 < (mx - mn) / 10 :=
        lt_of_le_of_ne (div_nonneg (sub_nonneg.mpr hmnmx) (by norm_num)) (Ne.symm hz)
      have hfl : 0 ≤ Int.floor ((v - mn) / ((mx - mn) / 10)) :=
        Int.floor_nonneg.mpr
          (div_nonneg (sub_nonneg.mpr (listMinQ_le _ _ hmn v hv)) (le_of_lt hbs))
      have hi2 : min (Int.floor ((v - mn) / ((mx - mn) / 10))) 9 = i := Option.some.inj hi
      constructor
      · rw [← hi2]
        exact le_min hfl (by norm_num)
      · rw [← hi2]
        exact min_le_right _ _

/-- C8, witness: on the column with coercible values 0 and 10, the maximum
falls in bin index 9. -/
theorem claim_C8_witness : binIndexJS 0 ((10 - 0) / 10) 10 = some 9 :=
  (claim_C8_amended dsPair "x" ChartType.bar ⟨"x", ColType.number, [JSVal.num 0, JSVal.num 10]⟩
      (by decide) 0 10
      (by simp [coercedValues, jsToNumber, listMinQ])
      (by simp [coercedValues, jsToNumber, listMaxQ])).2.2.1
    (by norm_num)

end ExcelChat
